import Mathlib

/-!
# ToDo frontend (`src/main/resources/static/js/app.js`): a shallow embedding

The script keeps three module-level variables (`currentFilter`, `tasks`,
`categories`), talks to a REST API through `fetch`, and writes markup into a
handful of DOM elements.  Here the three variables, the DOM elements the
script writes, and the list of side effects it performs (requests, console
output, `alert`, `confirm`, form resets) form an explicit state.  The answers
of the outside world (HTTP responses, the answer to `confirm`, the clock, the
platform's date parsing and formatting) are arguments of the operations.
-/

namespace ToDo

/-! ## Data model -/

/-- A task object as the API delivers it.  `null`/absent optional fields are
`none`; all other fields are JavaScript strings, `starred` a boolean. -/
structure Task where
  id : String
  title : String
  description : Option String
  status : String
  priority : String
  dueDate : Option String
  categoryId : Option String
  categoryName : Option String
  starred : Bool
deriving DecidableEq, Repr

/-- A category object as the API delivers it. -/
structure Category where
  id : String
  name : String
  color : String
deriving DecidableEq, Repr

/-- JavaScript truthiness of a value that is a string or `null`: only `null`
and the empty string are falsy. -/
def truthy : Option String → Bool
  | none => false
  | some s => s != ""

/-- The operator `x || null` on a string `x` (lines 191, 193, 194). -/
def orNull (x : String) : Option String :=
  if x = "" then none else some x

/-- The operator `x || y` on an optional string `x` and a string `y`
(lines 430, 440). -/
def orElse (x : Option String) (y : String) : String :=
  match x with
  | some s => if s = "" then y else s
  | none => y

/-- What the platform supplies to the script: the clock reading of
`new Date()` in milliseconds, the parser behind `new Date(string)` (`none` is
an Invalid Date), and the formatter behind `toLocaleString`.  The script
reads the clock once for every task it tests; one rendering is given one
reading, `now`.  `objectPrototype key` is what a property every object
inherits (`constructor`, `toString`, `__proto__`, ...) turns into when it is
put into a template literal, `none` when no object inherits a property of
that name. -/
structure Env where
  now : Int
  parseDate : String → Option Int
  toLocaleString : Option Int → String
  objectPrototype : String → Option String

/-- The comparison `new Date(d) < new Date()`: both dates are converted to
their time value, and a comparison with `NaN` (an Invalid Date) is false. -/
def dateBeforeNow (env : Env) (d : String) : Bool :=
  match env.parseDate d with
  | some ms => decide (ms < env.now)
  | none => false

/-! ## Utility functions (lines 406-457) -/

/-- The function `formatDate` (lines 407-416). -/
def formatDate (env : Env) (dateString : String) : String :=
  env.toLocaleString (env.parseDate dateString)

/-- The function `isOverdue` (lines 418-421). -/
def isOverdue (env : Env) (task : Task) : Bool :=
  if !truthy task.dueDate || task.status == "COMPLETED" then false
  else
    match task.dueDate with
    | some d => dateBeforeNow env d
    | none => false

/-- A lookup in one of the object literals `texts` (lines 424-429, 434-439):
`texts[key]`, `undefined` becoming `none`.  The literal's own property of that
name is found first, then the property every object inherits, a function or
an object, which is kept as the text it is inserted as. -/
def lookup (env : Env) (texts : List (String × String)) (key : String) : Option String :=
  match texts.find? (fun kv => kv.1 == key) with
  | some kv => some kv.2
  | none => env.objectPrototype key

/-- The function `getStatusText` (lines 423-431). -/
def getStatusText (env : Env) (status : String) : String :=
  orElse (lookup env [("PENDING", "Ootel"), ("IN_PROGRESS", "Pooleli"),
    ("COMPLETED", "Tehtud"), ("CANCELLED", "Tühistatud")] status) status

/-- The function `getPriorityText` (lines 433-441). -/
def getPriorityText (env : Env) (priority : String) : String :=
  orElse (lookup env [("LOW", "Madal"), ("MEDIUM", "Keskmine"),
    ("HIGH", "Kõrge"), ("CRITICAL", "Kriitiline")] priority) priority

/-- How the DOM serialises one character of a text node when `innerHTML` is
read (the HTML fragment serialisation algorithm, "escaping a string" outside
attribute mode): `&`, no-break space, `<` and `>` become character
references, every other character stands for itself. -/
def escapeChar (c : Char) : List Char :=
  if c = '&' then ['&', 'a', 'm', 'p', ';']
  else if c = '<' then ['&', 'l', 't', ';']
  else if c = '>' then ['&', 'g', 't', ';']
  else if c = Char.ofNat 160 then ['&', 'n', 'b', 's', 'p', ';']
  else [c]

/-- The serialisation of a text node with the given characters. -/
def escapeChars : List Char → List Char
  | [] => []
  | c :: cs => escapeChar c ++ escapeChars cs

/-- The function `escapeHtml` (lines 443-447): the text becomes the only
child, a text node, of a fresh `div`, and the `div` is serialised. -/
def escapeHtml (text : String) : String :=
  String.mk (escapeChars text.data)

/-! ## State -/

/-- The constant `API_BASE` (line 3). -/
def API_BASE : String := "http://localhost:8080/api/v1"

/-- The JSON bodies the script sends: `taskData` (lines 189-195), `updates`
(lines 211-216), the partial update of `toggleStar` (line 399) and
`categoryData` (line 268). -/
inductive Body where
  | taskData (title : String) (description : Option String) (priority : String)
      (dueDate : Option String) (categoryId : Option String)
  | updates (title description status priority : String)
  | starred (starred : Bool)
  | categoryData (name color : String)
deriving DecidableEq, Repr

/-- A side effect the script performs on the outside world. -/
inductive Effect where
  | fetch (method url : String) (body : Option Body)
  | consoleError (msg : String)
  | consoleLog (msg : String)
  | alert (msg : String)
  | confirm (msg : String)
  | preventDefault
  | formReset
deriving DecidableEq, Repr

/-- How a `fetch` is answered.  `rejected`: the promise rejects (transport
failure).  `received ok json`: a response arrived, `ok` is `response.ok`, and
`json` is what `response.json()` resolves to (`none`: it rejects). -/
inductive Response (α : Type) where
  | rejected
  | received (ok : Bool) (json : Option α)
deriving DecidableEq, Repr

/-- The DOM elements the script writes: `innerHTML` of the three containers,
`textContent` of the statistics counters, `style.display` of the modal. -/
structure Dom where
  tasksList : String
  categoriesList : String
  taskCategory : String
  totalTasks : Nat
  pendingTasks : Nat
  inProgressTasks : Nat
  completedTasks : Nat
  editModalDisplay : String
deriving DecidableEq, Repr

/-- The module-level variables (lines 6-8), the DOM, and the effects
performed so far, oldest first. -/
structure State where
  currentFilter : String
  tasks : List Task
  categories : List Category
  dom : Dom
  effects : List Effect
deriving DecidableEq, Repr

/-- Performing one more effect. -/
def State.emit (s : State) (e : Effect) : State :=
  { s with effects := s.effects ++ [e] }

/-- The state when the script is loaded (lines 6-8), over a given page. -/
def State.initial (dom : Dom) : State :=
  { currentFilter := "all", tasks := [], categories := [], dom := dom, effects := [] }

/-- The function `showSuccess` (lines 449-452). -/
def showSuccess (message : String) (s : State) : State :=
  s.emit (.consoleLog ("✓ " ++ message))

/-- The function `showError` (lines 454-457). -/
def showError (message : String) (s : State) : State :=
  (s.emit (.consoleError ("✗ " ++ message))).emit (.alert message)

/-! ## Rendering (lines 295-374) -/

/-- The test the `overdue` filter applies to a task (the function passed to
`filter` at lines 304-307). -/
def overdueFilterTest (env : Env) (t : Task) : Bool :=
  if !truthy t.dueDate then false
  else
    match t.dueDate with
    | some d => dateBeforeNow env d && t.status != "COMPLETED"
    | none => false

/-- The value of the local variable `filteredTasks` of `renderTasks` after
the filter was applied (lines 298-310). -/
def filteredTasks (env : Env) (currentFilter : String) (tasks : List Task) : List Task :=
  if currentFilter = "starred" then
    tasks.filter (fun t => t.starred)
  else if currentFilter = "overdue" then
    tasks.filter (fun t => overdueFilterTest env t)
  else if currentFilter ≠ "all" then
    tasks.filter (fun t => t.status == currentFilter)
  else tasks

/-- The markup of one task card: the template literal of lines 322-343. -/
def taskCard (env : Env) (task : Task) : String :=
  "\n        <div class=\"task-card " ++ (if task.starred then "starred" else "") ++ " "
    ++ (if isOverdue env task then "overdue" else "") ++ "\">\n"
  ++ "            <div class=\"task-header\">\n"
  ++ "                <h3 class=\"task-title\">" ++ escapeHtml task.title ++ "</h3>\n"
  ++ "                <span class=\"task-priority priority-" ++ task.priority ++ "\">"
    ++ getPriorityText env task.priority ++ "</span>\n"
  ++ "            </div>\n"
  ++ "            "
    ++ (match task.description with
        | some d => if d = "" then "" else
            "<p class=\"task-description\">" ++ escapeHtml d ++ "</p>"
        | none => "") ++ "\n"
  ++ "            <div class=\"task-meta\">\n"
  ++ "                <span class=\"task-status status-" ++ task.status ++ "\">"
    ++ getStatusText env task.status ++ "</span>\n"
  ++ "                "
    ++ (match task.categoryName with
        | some c => if c = "" then "" else "<span>📁 " ++ escapeHtml c ++ "</span>"
        | none => "") ++ "\n"
  ++ "                "
    ++ (match task.dueDate with
        | some d => if d = "" then "" else "<span>📅 " ++ formatDate env d ++ "</span>"
        | none => "") ++ "\n"
  ++ "                " ++ (if task.starred then "<span>⭐ Tärniga</span>" else "") ++ "\n"
  ++ "            </div>\n"
  ++ "            <div class=\"task-actions\">\n"
  ++ "                "
    ++ (if task.status ≠ "COMPLETED" then
          "<button class=\"btn-complete\" onclick=\"handleCompleteTask('" ++ task.id
            ++ "')\">✓ Valmis</button>"
        else "") ++ "\n"
  ++ "                "
    ++ (if task.status = "PENDING" then
          "<button class=\"btn-start\" onclick=\"handleStartTask('" ++ task.id
            ++ "')\">▶ Alusta</button>"
        else "") ++ "\n"
  ++ "                <button class=\"btn-edit\" onclick=\"openEditModal('" ++ task.id
    ++ "')\">✎ Muuda</button>\n"
  ++ "                <button class=\"btn-star\" onclick=\"toggleStar('" ++ task.id ++ "')\">"
    ++ (if task.starred then "★" else "☆") ++ "</button>\n"
  ++ "                <button class=\"btn-delete\" onclick=\"handleDeleteTask('" ++ task.id
    ++ "')\">🗑 Kustuta</button>\n"
  ++ "            </div>\n"
  ++ "        </div>\n"
  ++ "    "

/-- The placeholder of lines 313-318. -/
def emptyState : String :=
  "\n            <div class=\"empty-state\">\n"
  ++ "                <h3>Ülesandeid ei leitud</h3>\n"
  ++ "                <p>Lisa oma esimene ülesanne ülal oleva vormiga!</p>\n"
  ++ "            </div>\n"
  ++ "        "

/-- The function `renderTasks` (lines 296-344). -/
def renderTasks (env : Env) (s : State) : State :=
  let shown := filteredTasks env s.currentFilter s.tasks
  if shown.length = 0 then
    { s with dom := { s.dom with tasksList := emptyState } }
  else
    { s with dom := { s.dom with tasksList := String.join (shown.map (taskCard env)) } }

/-- The function `renderCategories` (lines 346-360). -/
def renderCategories (s : State) : State :=
  if s.categories.length = 0 then
    { s with dom := { s.dom with
        categoriesList := "<p style=\"color: #95a5a6;\">Kategooriad puuduvad</p>" } }
  else
    { s with dom := { s.dom with
        categoriesList := String.join (s.categories.map (fun cat =>
          "\n        <div class=\"category-tag\" style=\"background-color: " ++ cat.color ++ "\">\n"
          ++ "            <span>" ++ escapeHtml cat.name ++ "</span>\n"
          ++ "            <button class=\"delete-category\" onclick=\"handleDeleteCategory('"
            ++ cat.id ++ "')\">×</button>\n"
          ++ "        </div>\n"
          ++ "    ")) } }

/-- The function `updateCategoryDropdowns` (lines 362-367). -/
def updateCategoryDropdowns (s : State) : State :=
  { s with dom := { s.dom with
      taskCategory := "<option value=\"\">Ilma kategooriata</option>"
        ++ String.join (s.categories.map (fun cat =>
            "<option value=\"" ++ cat.id ++ "\">" ++ escapeHtml cat.name ++ "</option>")) } }

/-- The function `updateStatistics` (lines 369-374). -/
def updateStatistics (s : State) : State :=
  { s with dom := { s.dom with
      totalTasks := s.tasks.length
      pendingTasks := (s.tasks.filter (fun t => t.status == "PENDING")).length
      inProgressTasks := (s.tasks.filter (fun t => t.status == "IN_PROGRESS")).length
      completedTasks := (s.tasks.filter (fun t => t.status == "COMPLETED")).length } }

/-- The function `closeEditModal` (lines 390-392). -/
def closeEditModal (s : State) : State :=
  { s with dom := { s.dom with editModalDisplay := "none" } }

/-! ## API functions (lines 55-177)

Each function issues one request.  The functions that rethrow return whether
they returned normally (`true`) or threw (`false`); the value they return is
discarded by every caller and is not kept. -/

/-- The function `loadTasks` (lines 58-69). -/
def loadTasks (env : Env) (r : Response (List Task)) (s : State) : State :=
  let s := s.emit (.fetch "GET" (API_BASE ++ "/tasks") none)
  match r with
  | .received true (some json) =>
      updateStatistics (renderTasks env { s with tasks := json })
  | _ =>
      showError "Viga ülesannete laadimisel" (s.emit (.consoleError "Error loading tasks:"))

/-- The function `createTask` (lines 71-84). -/
def createTask (taskData : Body) (r : Response Unit) (s : State) : Bool × State :=
  let s := s.emit (.fetch "POST" (API_BASE ++ "/tasks") (some taskData))
  match r with
  | .received true (some _) => (true, s)
  | _ => (false, s.emit (.consoleError "Error creating task:"))

/-- The function `updateTask` (lines 86-99). -/
def updateTask (taskId : String) (updates : Body) (r : Response Unit) (s : State) :
    Bool × State :=
  let s := s.emit (.fetch "PUT" (API_BASE ++ "/tasks/" ++ taskId) (some updates))
  match r with
  | .received true (some _) => (true, s)
  | _ => (false, s.emit (.consoleError "Error updating task:"))

/-- The function `deleteTask` (lines 101-111). -/
def deleteTask (taskId : String) (r : Response Unit) (s : State) : Bool × State :=
  let s := s.emit (.fetch "DELETE" (API_BASE ++ "/tasks/" ++ taskId) none)
  match r with
  | .received true _ => (true, s)
  | _ => (false, s.emit (.consoleError "Error deleting task:"))

/-- The function `completeTask` (lines 113-124). -/
def completeTask (taskId : String) (r : Response Unit) (s : State) : Bool × State :=
  let s := s.emit (.fetch "POST" (API_BASE ++ "/tasks/" ++ taskId ++ "/complete") none)
  match r with
  | .received true (some _) => (true, s)
  | _ => (false, s.emit (.consoleError "Error completing task:"))

/-- The function `startTask` (lines 126-137). -/
def startTask (taskId : String) (r : Response Unit) (s : State) : Bool × State :=
  let s := s.emit (.fetch "POST" (API_BASE ++ "/tasks/" ++ taskId ++ "/start") none)
  match r with
  | .received true (some _) => (true, s)
  | _ => (false, s.emit (.consoleError "Error starting task:"))

/-- The function `loadCategories` (lines 140-150). -/
def loadCategories (r : Response (List Category)) (s : State) : State :=
  let s := s.emit (.fetch "GET" (API_BASE ++ "/categories") none)
  match r with
  | .received true (some json) =>
      updateCategoryDropdowns (renderCategories { s with categories := json })
  | _ => s.emit (.consoleError "Error loading categories:")

/-- The function `createCategory` (lines 152-165). -/
def createCategory (categoryData : Body) (r : Response Unit) (s : State) : Bool × State :=
  let s := s.emit (.fetch "POST" (API_BASE ++ "/categories") (some categoryData))
  match r with
  | .received true (some _) => (true, s)
  | _ => (false, s.emit (.consoleError "Error creating category:"))

/-- The function `deleteCategory` (lines 167-177). -/
def deleteCategory (categoryId : String) (r : Response Unit) (s : State) : Bool × State :=
  let s := s.emit (.fetch "DELETE" (API_BASE ++ "/categories/" ++ categoryId) none)
  match r with
  | .received true _ => (true, s)
  | _ => (false, s.emit (.consoleError "Error deleting category:"))

/-! ## Event handlers (lines 179-293, 394-404)

A handler takes the values it reads from the page and the answers to the
requests it may issue, in the order it issues them; an answer is not looked
at when the request is not issued. -/

/-- The values of the create-task form (lines 183-187). -/
structure TaskForm where
  title : String
  description : String
  priority : String
  dueDate : String
  categoryId : String
deriving DecidableEq, Repr

/-- The values of the edit-task form (lines 210-216). -/
structure EditForm where
  taskId : String
  title : String
  description : String
  status : String
  priority : String
deriving DecidableEq, Repr

/-- The object `taskData` built by `handleCreateTask` (lines 189-195). -/
def taskDataOf (form : TaskForm) : Body :=
  .taskData form.title (orNull form.description) form.priority (orNull form.dueDate)
    (orNull form.categoryId)

/-- The function `handleCreateTask` (lines 180-205). -/
def handleCreateTask (env : Env) (form : TaskForm) (r1 : Response Unit)
    (r2 : Response (List Task)) (s : State) : State :=
  let s := s.emit .preventDefault
  match createTask (taskDataOf form) r1 s with
  | (true, s) => showSuccess "Ülesanne lisatud!" ((loadTasks env r2 s).emit .formReset)
  | (false, s) => showError "Viga ülesande loomisel" s

/-- The function `handleUpdateTask` (lines 207-226). -/
def handleUpdateTask (env : Env) (form : EditForm) (r1 : Response Unit)
    (r2 : Response (List Task)) (s : State) : State :=
  let s := s.emit .preventDefault
  match updateTask form.taskId
      (.updates form.title form.description form.status form.priority) r1 s with
  | (true, s) => showSuccess "Ülesanne uuendatud!" (closeEditModal (loadTasks env r2 s))
  | (false, s) => showError "Viga ülesande uuendamisel" s

/-- The function `handleCompleteTask` (lines 228-236). -/
def handleCompleteTask (env : Env) (taskId : String) (r1 : Response Unit)
    (r2 : Response (List Task)) (s : State) : State :=
  match completeTask taskId r1 s with
  | (true, s) => showSuccess "Ülesanne märgitud tehtuks!" (loadTasks env r2 s)
  | (false, s) => showError "Viga ülesande täitmisel" s

/-- The function `handleStartTask` (lines 238-246). -/
def handleStartTask (env : Env) (taskId : String) (r1 : Response Unit)
    (r2 : Response (List Task)) (s : State) : State :=
  match startTask taskId r1 s with
  | (true, s) => showSuccess "Ülesanne alustatud!" (loadTasks env r2 s)
  | (false, s) => showError "Viga ülesande alustamisel" s

/-- The function `handleDeleteTask` (lines 248-260); `confirmed` is the
answer to the `confirm` dialog. -/
def handleDeleteTask (env : Env) (taskId : String) (confirmed : Bool) (r1 : Response Unit)
    (r2 : Response (List Task)) (s : State) : State :=
  let s := s.emit (.confirm "Kas oled kindel, et soovid selle ülesande kustutada?")
  if !confirmed then s
  else
    match deleteTask taskId r1 s with
    | (true, s) => showSuccess "Ülesanne kustutatud!" (loadTasks env r2 s)
    | (false, s) => showError "Viga ülesande kustutamisel" s

/-- The function `handleCreateCategory` (lines 262-278). -/
def handleCreateCategory (name color : String) (r1 : Response Unit)
    (r2 : Response (List Category)) (s : State) : State :=
  let s := s.emit .preventDefault
  match createCategory (.categoryData name color) r1 s with
  | (true, s) => showSuccess "Kategooria lisatud!" ((loadCategories r2 s).emit .formReset)
  | (false, s) => showError "Viga kategooria loomisel" s

/-- The function `handleDeleteCategory` (lines 280-293); `confirmed` is the
answer to the `confirm` dialog. -/
def handleDeleteCategory (env : Env) (categoryId : String) (confirmed : Bool)
    (r1 : Response Unit) (r2 : Response (List Category)) (r3 : Response (List Task))
    (s : State) : State :=
  let s := s.emit (.confirm "Kas oled kindel, et soovid selle kategooria kustutada?")
  if !confirmed then s
  else
    match deleteCategory categoryId r1 s with
    | (true, s) =>
        showSuccess "Kategooria kustutatud!" (loadTasks env r3 (loadCategories r2 s))
    | (false, s) => showError "Viga kategooria kustutamisel" s

/-- The function `toggleStar` (lines 394-404). -/
def toggleStar (env : Env) (taskId : String) (r1 : Response Unit)
    (r2 : Response (List Task)) (s : State) : State :=
  match s.tasks.find? (fun t => t.id == taskId) with
  | none => s
  | some task =>
      match updateTask taskId (.starred (!task.starred)) r1 s with
      | (true, s) => loadTasks env r2 s
      | (false, s) => showError "Viga tärni muutmisel" s

/-- The click listener of a filter button (lines 32-37), as far as it touches
the state: the button's `data-filter` becomes the current filter and the
tasks are rendered again. -/
def clickFilter (env : Env) (filter : String) (s : State) : State :=
  renderTasks env { s with currentFilter := filter }

/-! ## Reading the effects -/

/-- Whether an effect is a request. -/
def Effect.isFetch : Effect → Bool
  | .fetch _ _ _ => true
  | _ => false

/-- Whether an effect is the user-visible error notification, the `alert` of
`showError`. -/
def Effect.isAlert : Effect → Bool
  | .alert _ => true
  | _ => false

/-- Whether an effect is console output or an `alert`: what `showSuccess` and
`showError` produce. -/
def Effect.isNotification : Effect → Bool
  | .alert _ => true
  | .consoleLog _ => true
  | .consoleError _ => true
  | _ => false

/-- Whether an effect is an update call, a `PUT` request. -/
def Effect.isUpdate : Effect → Bool
  | .fetch method _ _ => method == "PUT"
  | _ => false

/-- Whether an effect is a `DELETE` request. -/
def Effect.isDelete : Effect → Bool
  | .fetch method _ _ => method == "DELETE"
  | _ => false

/-- The number of occurrences of a character in a string. -/
def countChar (c : Char) (s : String) : Nat :=
  s.data.count c

/-- Decoding the character references of a piece of markup text, as an HTML
parser does for the four references the serialiser produces; any other
character, also an `&` that starts none of the four, stands for itself. -/
def decodeRefs : List Char → List Char
  | [] => []
  | '&' :: 'a' :: 'm' :: 'p' :: ';' :: r => '&' :: decodeRefs r
  | '&' :: 'l' :: 't' :: ';' :: r => '<' :: decodeRefs r
  | '&' :: 'g' :: 't' :: ';' :: r => '>' :: decodeRefs r
  | '&' :: 'n' :: 'b' :: 's' :: 'p' :: ';' :: r => Char.ofNat 160 :: decodeRefs r
  | c :: r => c :: decodeRefs r

/-- Reading escaped text back: the characters a parser gets out of it. -/
def unescapeHtml (s : String) : String :=
  String.mk (decodeRefs s.data)

/-- Whether the characters start with one of the four character references. -/
def startsReference (l : List Char) : Bool :=
  ['&', 'a', 'm', 'p', ';'].isPrefixOf l || ['&', 'l', 't', ';'].isPrefixOf l
    || ['&', 'g', 't', ';'].isPrefixOf l || ['&', 'n', 'b', 's', 'p', ';'].isPrefixOf l

/-- A platform for the examples: the clock reads 1000, a due date is parsed
as the number of its characters, the empty string being an Invalid Date,
dates are shown as a fixed text, and of the inherited properties `valueOf`
is there, a function. -/
def exampleEnv : Env :=
  { now := 1000
    parseDate := fun d => if d = "" then none else some (d.length : Int)
    toLocaleString := fun _ => "01.01.2025 10:00"
    objectPrototype := fun key =>
      if key = "valueOf" then some "function valueOf() \x7b [native code] \x7d" else none }

/-- A task for the examples: pending, no optional field set. -/
def exampleTask : Task :=
  { id := "1", title := "a<b", description := none, status := "PENDING", priority := "LOW",
    dueDate := none, categoryId := none, categoryName := none, starred := false }

/-- A task for the examples: due at time 10 on the example platform, in
progress. -/
def lateTask : Task :=
  { id := "2", title := "late", description := none, status := "IN_PROGRESS",
    priority := "HIGH", dueDate := some "2024-01-01", categoryId := none,
    categoryName := none, starred := true }

/-- A task for the examples: cancelled. -/
def cancelledTask : Task :=
  { id := "3", title := "dropped", description := none, status := "CANCELLED",
    priority := "LOW", dueDate := none, categoryId := none, categoryName := none,
    starred := false }

/-- A page for the examples, nothing rendered yet. -/
def exampleDom : Dom :=
  { tasksList := "", categoriesList := "", taskCategory := "", totalTasks := 0,
    pendingTasks := 0, inProgressTasks := 0, completedTasks := 0, editModalDisplay := "none" }

/-- A state for the examples: three cached tasks, no category. -/
def exampleState : State :=
  { currentFilter := "all", tasks := [exampleTask, lateTask, cancelledTask], categories := [],
    dom := exampleDom, effects := [] }

/-- The four status values of the data model. -/
def statusValues : List String :=
  ["PENDING", "IN_PROGRESS", "COMPLETED", "CANCELLED"]

/-! ## Escaping -/

theorem decodeRefs_cons_ne (c : Char) (r : List Char) (h : c ≠ '&') :
    decodeRefs (c :: r) = c :: decodeRefs r := by
  rw [decodeRefs] <;> (intros; simp_all)

theorem decodeRefs_escapeChars (l : List Char) : decodeRefs (escapeChars l) = l := by
  induction l with
  | nil => rfl
  | cons c cs ih =>
    simp only [escapeChars, escapeChar]
    split_ifs with h1 h2 h3 h4
    · subst h1; simp [decodeRefs, ih]
    · subst h2; simp [decodeRefs, ih]
    · subst h3; simp [decodeRefs, ih]
    · subst h4; simp [decodeRefs, ih]
    · simp [decodeRefs_cons_ne _ _ h1, ih]

theorem count_escapeChars_lt (l : List Char) : (escapeChars l).count '<' = 0 := by
  induction l with
  | nil => rfl
  | cons c cs ih =>
    simp only [escapeChars, escapeChar]
    split_ifs with h1 h2 h3 h4
    · simp [ih]
    · simp [ih]
    · simp [ih]
    · simp [ih]
    · rw [List.count_append, ih]
      simp [List.count_cons, Ne.symm h2]

theorem count_escapeChars_gt (l : List Char) : (escapeChars l).count '>' = 0 := by
  induction l with
  | nil => rfl
  | cons c cs ih =>
    simp only [escapeChars, escapeChar]
    split_ifs with h1 h2 h3 h4
    · simp [ih]
    · simp [ih]
    · simp [ih]
    · simp [ih]
    · rw [List.count_append, ih]
      simp [List.count_cons, Ne.symm h3]

theorem startsReference_of_suffix (l t : List Char) (ht : t <:+ escapeChars l)
    (hamp : t.head? = some '&') : startsReference t = true := by
  induction l with
  | nil =>
    simp only [escapeChars, List.suffix_nil] at ht
    subst ht; simp at hamp
  | cons c cs ih =>
    simp only [escapeChars, escapeChar] at ht
    split_ifs at ht with h1 h2 h3 h4
    · simp only [List.cons_append, List.nil_append, List.suffix_cons_iff] at ht
      rcases ht with h | h | h | h | h | h
      · subst h; simp [startsReference]
      · subst h; simp at hamp
      · subst h; simp at hamp
      · subst h; simp at hamp
      · subst h; simp at hamp
      · exact ih h
    · simp only [List.cons_append, List.nil_append, List.suffix_cons_iff] at ht
      rcases ht with h | h | h | h | h
      · subst h; simp [startsReference]
      · subst h; simp at hamp
      · subst h; simp at hamp
      · subst h; simp at hamp
      · exact ih h
    · simp only [List.cons_append, List.nil_append, List.suffix_cons_iff] at ht
      rcases ht with h | h | h | h | h
      · subst h; simp [startsReference]
      · subst h; simp at hamp
      · subst h; simp at hamp
      · subst h; simp at hamp
      · exact ih h
    · simp only [List.cons_append, List.nil_append, List.suffix_cons_iff] at ht
      rcases ht with h | h | h | h | h | h | h
      · subst h; simp [startsReference]
      · subst h; simp at hamp
      · subst h; simp at hamp
      · subst h; simp at hamp
      · subst h; simp at hamp
      · subst h; simp at hamp
      · exact ih h
    · simp only [List.cons_append, List.nil_append, List.suffix_cons_iff] at ht
      rcases ht with h | h
      · subst h
        simp only [List.head?_cons, Option.some.injEq] at hamp
        exact absurd hamp h1
      · exact ih h

theorem countChar_append (c : Char) (a b : String) :
    countChar c (a ++ b) = countChar c a + countChar c b := by
  simp [countChar, String.data_append, List.count_append]

theorem countChar_lt_escapeHtml (text : String) : countChar '<' (escapeHtml text) = 0 :=
  count_escapeChars_lt text.data

theorem countChar_gt_escapeHtml (text : String) : countChar '>' (escapeHtml text) = 0 :=
  count_escapeChars_gt text.data

/-! ## The task card -/

theorem taskCard_title_factor (env : Env) (task : Task) : ∃ before after : String,
    ∀ title : String,
      taskCard env { task with title := title } = before ++ (escapeHtml title ++ after) := by
  apply Exists.intro
  apply Exists.intro
  intro title
  unfold taskCard isOverdue
  dsimp only
  simp only [String.append_assoc]
  iterate 6 rw [← String.append_assoc]

theorem countChar_lt_taskCard (env : Env) (task : Task) (title d c : String)
    (hd : d ≠ "") (hc : c ≠ "") :
    countChar '<' (taskCard env
        { task with title := title, description := some d, categoryName := some c })
      = countChar '<' (taskCard env
        { task with title := "", description := none, categoryName := none }) + 4 := by
  have h0 : countChar '<' "" = 0 := by decide
  have h1 : countChar '<' "<p class=\"task-description\">" = 1 := by decide
  have h2 : countChar '<' "</p>" = 1 := by decide
  have h3 : countChar '<' "<span>📁 " = 1 := by decide
  have h4 : countChar '<' "</span>" = 1 := by decide
  have h5 : countChar '<' (escapeHtml "") = 0 := countChar_lt_escapeHtml ""
  unfold taskCard isOverdue
  dsimp only
  simp only [countChar_append, countChar_lt_escapeHtml, if_neg hd, if_neg hc, h0, h1, h2, h3, h4]
  omega

theorem taskCard_title_site (env : Env) (task : Task) : ∃ before after : String,
    ∀ title : String,
      taskCard env { task with title := title }
        = before ++ ("                <h3 class=\"task-title\">"
            ++ (escapeHtml title ++ ("</h3>\n" ++ after))) := by
  apply Exists.intro
  apply Exists.intro
  intro title
  unfold taskCard isOverdue
  dsimp only
  simp only [String.append_assoc]
  repeat rw [← String.append_assoc]

theorem taskCard_description_site (env : Env) (task : Task) : ∃ before after : String,
    ∀ d : String, d ≠ "" →
      taskCard env { task with description := some d }
        = before ++ ("<p class=\"task-description\">"
            ++ (escapeHtml d ++ ("</p>" ++ after))) := by
  apply Exists.intro
  apply Exists.intro
  intro d hd
  unfold taskCard isOverdue
  dsimp only
  simp only [String.append_assoc, if_neg hd]
  repeat rw [← String.append_assoc]

theorem taskCard_categoryName_site (env : Env) (task : Task) : ∃ before after : String,
    ∀ c : String, c ≠ "" →
      taskCard env { task with categoryName := some c }
        = before ++ ("<span>📁 " ++ (escapeHtml c ++ ("</span>" ++ after))) := by
  apply Exists.intro
  apply Exists.intro
  intro c hc
  unfold taskCard isOverdue
  dsimp only
  simp only [String.append_assoc, if_neg hc]
  repeat rw [← String.append_assoc]

theorem taskCard_priority_sites (env : Env) (task : Task) : ∃ before after : String,
    ∀ p : String,
      taskCard env { task with priority := p }
        = before ++ ("                <span class=\"task-priority priority-"
            ++ (p ++ ("\">" ++ (getPriorityText env p ++ ("</span>\n" ++ after))))) := by
  apply Exists.intro
  apply Exists.intro
  intro p
  unfold taskCard isOverdue
  dsimp only
  simp only [String.append_assoc]
  repeat rw [← String.append_assoc]

theorem taskCard_status_sites (env : Env) (task : Task) : ∃ before after : String,
    ∀ st : String, st ≠ "COMPLETED" → st ≠ "PENDING" →
      taskCard env { task with status := st }
        = before ++ ("                <span class=\"task-status status-"
            ++ (st ++ ("\">" ++ (getStatusText env st ++ ("</span>\n" ++ after))))) := by
  apply Exists.intro
  apply Exists.intro
  intro st h1 h2
  unfold taskCard isOverdue
  dsimp only
  have hb : (st == "COMPLETED") = false := by simpa using h1
  simp only [String.append_assoc, ne_eq, h1, h2, hb, Bool.or_false, not_false_eq_true,
    if_true, if_false]
  repeat rw [← String.append_assoc]

theorem taskCard_status_completed (env : Env) (task : Task) : ∃ before after : String,
    taskCard env { task with status := "COMPLETED" }
      = before ++ ("                <span class=\"task-status status-"
          ++ ("COMPLETED" ++ ("\">" ++ (getStatusText env "COMPLETED"
            ++ ("</span>\n" ++ after))))) := by
  apply Exists.intro
  apply Exists.intro
  unfold taskCard isOverdue
  dsimp only
  have e1 : (("COMPLETED" : String) == "COMPLETED") = true := by decide
  have e2 : ¬ ("COMPLETED" : String) = "PENDING" := by decide
  simp only [String.append_assoc, ne_eq, e1, e2, Bool.or_true, not_true_eq_false,
    if_true, if_false]
  repeat rw [← String.append_assoc]

theorem taskCard_status_pending (env : Env) (task : Task) : ∃ before after : String,
    taskCard env { task with status := "PENDING" }
      = before ++ ("                <span class=\"task-status status-"
          ++ ("PENDING" ++ ("\">" ++ (getStatusText env "PENDING"
            ++ ("</span>\n" ++ after))))) := by
  apply Exists.intro
  apply Exists.intro
  unfold taskCard isOverdue
  dsimp only
  have e1 : (("PENDING" : String) == "COMPLETED") = false := by decide
  have e2 : ¬ ("PENDING" : String) = "COMPLETED" := by decide
  simp only [String.append_assoc, ne_eq, e1, e2, Bool.or_false, not_false_eq_true,
    if_true, if_false]
  repeat rw [← String.append_assoc]

theorem taskCard_id_sites (env : Env) (task : Task) : ∃ before : String,
    ∀ id : String,
      taskCard env { task with id := id }
        = before ++ ("            <div class=\"task-actions\">\n"
          ++ "                "
            ++ (if task.status ≠ "COMPLETED" then
                  "<button class=\"btn-complete\" onclick=\"handleCompleteTask('" ++ id
                    ++ "')\">✓ Valmis</button>"
                else "") ++ "\n"
          ++ "                "
            ++ (if task.status = "PENDING" then
                  "<button class=\"btn-start\" onclick=\"handleStartTask('" ++ id
                    ++ "')\">▶ Alusta</button>"
                else "") ++ "\n"
          ++ "                <button class=\"btn-edit\" onclick=\"openEditModal('" ++ id
            ++ "')\">✎ Muuda</button>\n"
          ++ "                <button class=\"btn-star\" onclick=\"toggleStar('" ++ id ++ "')\">"
            ++ (if task.starred then "★" else "☆") ++ "</button>\n"
          ++ "                <button class=\"btn-delete\" onclick=\"handleDeleteTask('" ++ id
            ++ "')\">🗑 Kustuta</button>\n"
          ++ "            </div>\n"
          ++ "        </div>\n"
          ++ "    ") := by
  apply Exists.intro
  intro id
  unfold taskCard isOverdue
  dsimp only
  simp only [String.append_assoc]
  repeat rw [← String.append_assoc]

/-- C4, as the code has it.  The title, the description and the category
name of a task enter its card only as their escaped text, each at one place,
as the content of its own element (`h3.task-title`, `p.task-description`, the
category `span`), the rest of the card not depending on them; so they add no
raw `<` to the card beyond the two tags each of description and category
name brings.  Priority, status and id enter the card as they are, without
`escapeHtml`: priority and status in the `class` attribute of their `span`
and, through `getPriorityText` and `getStatusText`, as its content; the id in
the `onclick` attribute of every button of the card, and nowhere else. -/
theorem taskCard_escapes_free_text (env : Env) (task : Task) :
    (∃ before after : String, ∀ title : String,
        taskCard env { task with title := title }
          = before ++ ("                <h3 class=\"task-title\">"
              ++ (escapeHtml title ++ ("</h3>\n" ++ after))))
    ∧ (∃ before after : String, ∀ d : String, d ≠ "" →
        taskCard env { task with description := some d }
          = before ++ ("<p class=\"task-description\">"
              ++ (escapeHtml d ++ ("</p>" ++ after))))
    ∧ (∃ before after : String, ∀ c : String, c ≠ "" →
        taskCard env { task with categoryName := some c }
          = before ++ ("<span>📁 " ++ (escapeHtml c ++ ("</span>" ++ after))))
    ∧ (∀ title d c : String, d ≠ "" → c ≠ "" →
        countChar '<' (taskCard env
            { task with title := title, description := some d, categoryName := some c })
          = countChar '<' (taskCard env
            { task with title := "", description := none, categoryName := none }) + 4)
    ∧ (∃ before after : String, ∀ p : String,
        taskCard env { task with priority := p }
          = before ++ ("                <span class=\"task-priority priority-"
              ++ (p ++ ("\">" ++ (getPriorityText env p ++ ("</span>\n" ++ after))))))
    ∧ (∃ before after : String, ∀ st : String, st ≠ "COMPLETED" → st ≠ "PENDING" →
        taskCard env { task with status := st }
          = before ++ ("                <span class=\"task-status status-"
              ++ (st ++ ("\">" ++ (getStatusText env st ++ ("</span>\n" ++ after))))))
    ∧ (∃ before after : String,
        taskCard env { task with status := "COMPLETED" }
          = before ++ ("                <span class=\"task-status status-"
              ++ ("COMPLETED" ++ ("\">" ++ (getStatusText env "COMPLETED"
                ++ ("</span>\n" ++ after))))))
    ∧ (∃ before after : String,
        taskCard env { task with status := "PENDING" }
          = before ++ ("                <span class=\"task-status status-"
              ++ ("PENDING" ++ ("\">" ++ (getStatusText env "PENDING"
                ++ ("</span>\n" ++ after))))))
    ∧ (∃ before : String, ∀ id : String,
        taskCard env { task with id := id }
          = before ++ ("            <div class=\"task-actions\">\n"
            ++ "                "
              ++ (if task.status ≠ "COMPLETED" then
                    "<button class=\"btn-complete\" onclick=\"handleCompleteTask('" ++ id
                      ++ "')\">✓ Valmis</button>"
                  else "") ++ "\n"
            ++ "                "
              ++ (if task.status = "PENDING" then
                    "<button class=\"btn-start\" onclick=\"handleStartTask('" ++ id
                      ++ "')\">▶ Alusta</button>"
                  else "") ++ "\n"
            ++ "                <button class=\"btn-edit\" onclick=\"openEditModal('" ++ id
              ++ "')\">✎ Muuda</button>\n"
            ++ "                <button class=\"btn-star\" onclick=\"toggleStar('" ++ id
              ++ "')\">" ++ (if task.starred then "★" else "☆") ++ "</button>\n"
            ++ "                <button class=\"btn-delete\" onclick=\"handleDeleteTask('" ++ id
              ++ "')\">🗑 Kustuta</button>\n"
            ++ "            </div>\n"
            ++ "        </div>\n"
            ++ "    ")) :=
  ⟨taskCard_title_site env task, taskCard_description_site env task,
    taskCard_categoryName_site env task,
    fun title d c hd hc => countChar_lt_taskCard env task title d c hd hc,
    taskCard_priority_sites env task, taskCard_status_sites env task,
    taskCard_status_completed env task, taskCard_status_pending env task,
    taskCard_id_sites env task⟩

/-- C4, an instance: a title, a description and a category name full of
markup leave the number of raw `<` of the card where it was. -/
theorem taskCard_escapes_free_text_witness :
    countChar '<' (taskCard exampleEnv
        { exampleTask with title := "<script>", description := some "<b>x</b>",
                           categoryName := some "<i>" })
      = countChar '<' (taskCard exampleEnv
        { exampleTask with title := "", description := none, categoryName := none }) + 4 :=
  (taskCard_escapes_free_text exampleEnv exampleTask).2.2.2.1 "<script>" "<b>x</b>" "<i>"
    (by decide) (by decide)

set_option maxRecDepth 100000 in
/-- C4 as stated fails: priority, status and id are not escaped.  A `<` in
the priority or in the status arrives twice in the card as a raw `<`, and a
double quote in the id arrives in each of the five `onclick` attributes. -/
theorem taskCard_raw_priority_status_id :
    countChar '<' (taskCard exampleEnv { exampleTask with priority := "<" })
        = countChar '<' (taskCard exampleEnv { exampleTask with priority := "" }) + 2
    ∧ countChar '<' (taskCard exampleEnv { exampleTask with status := "<" })
        = countChar '<' (taskCard exampleEnv { exampleTask with status := "" }) + 2
    ∧ countChar '"' (taskCard exampleEnv { exampleTask with id := "\"" })
        = countChar '"' (taskCard exampleEnv { exampleTask with id := "" }) + 5
    ∧ countChar '<' (escapeHtml "<") = 0 ∧ countChar '"' (escapeHtml "\"") = 1 := by
  decide

/-- C5: for every string, the escaped text has no `<` and no `>`, every `&`
in it starts one of the character references, and decoding the references
gives the string back; the title enters a task card only as its escaped
text, at one place, the rest of the card not depending on it. -/
theorem escapeHtml_literal_roundtrip (text : String) :
    countChar '<' (escapeHtml text) = 0 ∧ countChar '>' (escapeHtml text) = 0
    ∧ (∀ t : List Char, t <:+ (escapeHtml text).data → t.head? = some '&' →
        startsReference t = true)
    ∧ unescapeHtml (escapeHtml text) = text
    ∧ ∀ (env : Env) (task : Task), ∃ before after : String, ∀ title : String,
        taskCard env { task with title := title }
          = before ++ (escapeHtml title ++ after) := by
  refine ⟨countChar_lt_escapeHtml text, countChar_gt_escapeHtml text,
    fun t ht hamp => startsReference_of_suffix text.data t ht hamp, ?_,
    fun env task => taskCard_title_factor env task⟩
  simp [unescapeHtml, escapeHtml, decodeRefs_escapeChars]

/-- C5, an instance: a title with all three special characters and an `&`
that already looks like a reference. -/
theorem escapeHtml_literal_roundtrip_witness :
    escapeHtml "<a>&lt;" = "&lt;a&gt;&amp;lt;"
    ∧ unescapeHtml (escapeHtml "<a>&lt;") = "<a>&lt;" :=
  ⟨by decide, (escapeHtml_literal_roundtrip "<a>&lt;").2.2.2.1⟩

/-! ## Filtering -/

theorem mem_filteredTasks_overdue (env : Env) (tasks : List Task) (T : Task) :
    T ∈ filteredTasks env "overdue" tasks ↔
      T ∈ tasks ∧ (∃ d ms, T.dueDate = some d ∧ d ≠ "" ∧ env.parseDate d = some ms
        ∧ ms < env.now) ∧ T.status ≠ "COMPLETED" := by
  have hne : ("overdue" : String) ≠ "starred" := by decide
  simp only [filteredTasks, if_neg hne, if_true, List.mem_filter, overdueFilterTest]
  apply and_congr_right
  intro _
  cases hd : T.dueDate with
  | none => simp [truthy]
  | some d =>
    by_cases hd0 : d = ""
    · simp [truthy, hd0]
    · cases hp : env.parseDate d with
      | none => simp [truthy, hd0, dateBeforeNow, hp]
      | some ms => simp [truthy, hd0, dateBeforeNow, hp]

/-- C1: with the filter set to `overdue`, a task of the cache is in the list
`renderTasks` displays exactly when it has a due date (not `null`, not
empty), the due date is a time strictly before `now`, and its status is not
`COMPLETED`; a task without due date is never in it.  The list is what
`renderTasks` turns into cards. -/
theorem overdue_filter_iff (env : Env) (s : State) (T : Task) (hT : T ∈ s.tasks) :
    (T ∈ filteredTasks env "overdue" s.tasks ↔
      (∃ d ms, T.dueDate = some d ∧ d ≠ "" ∧ env.parseDate d = some ms ∧ ms < env.now)
        ∧ T.status ≠ "COMPLETED")
    ∧ (T.dueDate = none → T ∉ filteredTasks env "overdue" s.tasks)
    ∧ (clickFilter env "overdue" s).dom.tasksList
        = (if (filteredTasks env "overdue" s.tasks).length = 0 then emptyState
           else String.join ((filteredTasks env "overdue" s.tasks).map (taskCard env))) := by
  refine ⟨?_, ?_, ?_⟩
  · rw [mem_filteredTasks_overdue]
    simp [hT]
  · intro hnone hmem
    rw [mem_filteredTasks_overdue] at hmem
    obtain ⟨_, ⟨d, _, hd, _⟩, _⟩ := hmem
    rw [hnone] at hd
    cases hd
  · simp only [clickFilter, renderTasks]
    split_ifs <;> rfl

/-- C1, an instance: of the three example tasks only the one due at time 10,
before the clock's 1000, and in progress, is overdue. -/
theorem overdue_filter_iff_witness :
    lateTask ∈ filteredTasks exampleEnv "overdue" exampleState.tasks
    ∧ exampleTask ∉ filteredTasks exampleEnv "overdue" exampleState.tasks :=
  ⟨((overdue_filter_iff exampleEnv exampleState lateTask (by decide)).1).2
      ⟨⟨"2024-01-01", 10, rfl, by decide, by decide, by decide⟩, by decide⟩,
    (overdue_filter_iff exampleEnv exampleState exampleTask (by decide)).2.1 rfl⟩

/-- C8: with the filter set to one of the four status values, a task of the
cache is in the list `renderTasks` displays exactly when its status is that
value, and the displayed tasks are the cache's tasks of that status in the
cache's order. -/
theorem status_filter_iff (env : Env) (s : State) (S : String) (T : Task)
    (hS : S ∈ statusValues) (hT : T ∈ s.tasks) :
    (T ∈ filteredTasks env S s.tasks ↔ T.status = S)
    ∧ (filteredTasks env S s.tasks).Sublist s.tasks
    ∧ filteredTasks env S s.tasks = s.tasks.filter (fun t => t.status == S)
    ∧ (clickFilter env S s).dom.tasksList
        = (if (filteredTasks env S s.tasks).length = 0 then emptyState
           else String.join ((filteredTasks env S s.tasks).map (taskCard env))) := by
  have h1 : S ≠ "starred" := by
    intro h; subst h; revert hS; decide
  have h2 : S ≠ "overdue" := by
    intro h; subst h; revert hS; decide
  have h3 : S ≠ "all" := by
    intro h; subst h; revert hS; decide
  have hf : filteredTasks env S s.tasks = s.tasks.filter (fun t => t.status == S) := by
    simp [filteredTasks, h1, h2, h3]
  refine ⟨?_, ?_, hf, ?_⟩
  · rw [hf]; simp [List.mem_filter, hT]
  · rw [hf]; exact List.filter_sublist _
  · simp only [clickFilter, renderTasks]
    split_ifs <;> rfl

/-- C8, an instance: under the filter `IN_PROGRESS` the example cache shows
the task in progress and not the pending one. -/
theorem status_filter_iff_witness :
    lateTask ∈ filteredTasks exampleEnv "IN_PROGRESS" exampleState.tasks
    ∧ filteredTasks exampleEnv "IN_PROGRESS" exampleState.tasks = [lateTask] :=
  ⟨((status_filter_iff exampleEnv exampleState "IN_PROGRESS" lateTask
      (by decide) (by decide)).1).2 rfl, by decide⟩

/-- C10: for every task and every current time, `isOverdue` and the test of
the `overdue` filter give the same boolean, in particular `false` for a task
without due date and for a completed task. -/
theorem isOverdue_eq_overdueFilterTest (env : Env) (task : Task) :
    isOverdue env task = overdueFilterTest env task
    ∧ filteredTasks env "overdue" [task] = (if isOverdue env task then [task] else [])
    ∧ (task.dueDate = none → isOverdue env task = false ∧ overdueFilterTest env task = false)
    ∧ (task.status = "COMPLETED" →
        isOverdue env task = false ∧ overdueFilterTest env task = false) := by
  have key : isOverdue env task = overdueFilterTest env task := by
    unfold isOverdue overdueFilterTest
    cases hd : task.dueDate with
    | none => simp [truthy]
    | some d =>
      by_cases hd0 : d = ""
      · simp [truthy, hd0]
      · by_cases hc : task.status = "COMPLETED"
        · simp [truthy, hd0, hc]
        · simp [truthy, hd0, hc]
  refine ⟨key, ?_, ?_, ?_⟩
  · have hne : ("overdue" : String) ≠ "starred" := by decide
    simp only [filteredTasks, if_neg hne, if_true, List.filter_cons, List.filter_nil]
    rw [key]
  · intro hd
    rw [← key]
    simp [isOverdue, hd, truthy]
  · intro hc
    rw [← key]
    simp [isOverdue, hc]

/-- C10, an instance: the example task without due date is overdue for
neither test, the late one for both. -/
theorem isOverdue_eq_overdueFilterTest_witness :
    (isOverdue exampleEnv exampleTask = false
      ∧ overdueFilterTest exampleEnv exampleTask = false)
    ∧ isOverdue exampleEnv lateTask = true ∧ overdueFilterTest exampleEnv lateTask = true :=
  ⟨(isOverdue_eq_overdueFilterTest exampleEnv exampleTask).2.2.1 rfl, by decide, by decide⟩

/-! ## Statistics -/

theorem length_filter_status (tasks : List Task)
    (h : ∀ t ∈ tasks, t.status ∈ statusValues) :
    (tasks.filter (fun t => t.status == "PENDING")).length
      + (tasks.filter (fun t => t.status == "IN_PROGRESS")).length
      + (tasks.filter (fun t => t.status == "COMPLETED")).length
      + (tasks.filter (fun t => t.status == "CANCELLED")).length = tasks.length := by
  induction tasks with
  | nil => rfl
  | cons t ts ih =>
    have ht : t.status ∈ statusValues := h t (List.mem_cons_self t ts)
    have ih := ih (fun u hu => h u (List.mem_cons_of_mem t hu))
    simp only [statusValues, List.mem_cons, List.mem_singleton, List.not_mem_nil,
      or_false] at ht
    rcases ht with ht | ht | ht | ht <;>
      simp [List.filter_cons, ht] <;> omega

/-- C2 as stated fails: `updateStatistics` writes a counter for PENDING, for
IN_PROGRESS and for COMPLETED and none for CANCELLED, so with one cancelled
task in the cache the three counters sum to 0 and the total counter is 1. -/
theorem updateStatistics_cancelled_uncounted :
    (∀ t ∈ [cancelledTask], t.status ∈ statusValues)
    ∧ (updateStatistics { exampleState with tasks := [cancelledTask] }).dom.totalTasks = 1
    ∧ (updateStatistics { exampleState with tasks := [cancelledTask] }).dom.pendingTasks
        + (updateStatistics { exampleState with tasks := [cancelledTask] }).dom.inProgressTasks
        + (updateStatistics { exampleState with tasks := [cancelledTask] }).dom.completedTasks
        = 0 := by
  decide

/-- C2, as the code has it: for a cache whose tasks each have one of the
four status values, the three per-status counters `updateStatistics` writes
(pending, in progress, completed) plus the number of cancelled tasks sum to
the total counter it writes, the total counter is the number of tasks in the
cache, whatever the current filter, and nothing else of the state changes. -/
theorem updateStatistics_counters (s : State)
    (h : ∀ t ∈ s.tasks, t.status ∈ statusValues) :
    (updateStatistics s).dom.pendingTasks + (updateStatistics s).dom.inProgressTasks
        + (updateStatistics s).dom.completedTasks
        + (s.tasks.filter (fun t => t.status == "CANCELLED")).length
      = (updateStatistics s).dom.totalTasks
    ∧ (updateStatistics s).dom.totalTasks = s.tasks.length
    ∧ (updateStatistics s).tasks = s.tasks
    ∧ (updateStatistics s).currentFilter = s.currentFilter := by
  refine ⟨?_, rfl, rfl, rfl⟩
  simp only [updateStatistics]
  exact length_filter_status s.tasks h

/-- C2, an instance: the example cache of one pending, one in-progress and
one cancelled task gets the counters 1, 1, 0 and the total 3. -/
theorem updateStatistics_counters_witness :
    (∀ t ∈ exampleState.tasks, t.status ∈ statusValues)
    ∧ (updateStatistics exampleState).dom.pendingTasks
        + (updateStatistics exampleState).dom.inProgressTasks
        + (updateStatistics exampleState).dom.completedTasks
        + (exampleState.tasks.filter (fun t => t.status == "CANCELLED")).length
      = (updateStatistics exampleState).dom.totalTasks
    ∧ (updateStatistics exampleState).dom.totalTasks = 3 :=
  ⟨by decide, (updateStatistics_counters exampleState (by decide)).1, by decide⟩

/-! ## Handlers -/

theorem orNull_eq_none_iff (x : String) : orNull x = none ↔ x = "" := by
  unfold orNull; split_ifs with h <;> simp [h]

theorem orNull_of_ne (x : String) (h : x ≠ "") : orNull x = some x := by
  unfold orNull; simp [h]

theorem orNull_ne_some_empty (x : String) : orNull x ≠ some "" := by
  unfold orNull; split_ifs with h
  · simp
  · intro h2; exact h (Option.some.inj h2)

theorem loadTasks_effects (env : Env) (r : Response (List Task)) (s : State) :
    ∃ rest : List Effect,
      (loadTasks env r s).effects
        = s.effects ++ Effect.fetch "GET" (API_BASE ++ "/tasks") none :: rest
      ∧ ∀ e ∈ rest, e.isFetch = false := by
  have hfail : ∃ rest : List Effect,
      (showError "Viga ülesannete laadimisel"
        ((s.emit (.fetch "GET" (API_BASE ++ "/tasks") none)).emit
          (.consoleError "Error loading tasks:"))).effects
        = s.effects ++ Effect.fetch "GET" (API_BASE ++ "/tasks") none :: rest
      ∧ ∀ e ∈ rest, e.isFetch = false :=
    ⟨[.consoleError "Error loading tasks:", .consoleError ("✗ " ++ "Viga ülesannete laadimisel"),
        .alert "Viga ülesannete laadimisel"],
      by simp [showError, State.emit], by simp [Effect.isFetch]⟩
  rcases r with _ | ⟨ok, j⟩
  · exact hfail
  · cases ok
    · exact hfail
    · cases j with
      | none => exact hfail
      | some l =>
        refine ⟨[], ?_, by simp⟩
        simp only [loadTasks, updateStatistics, renderTasks, State.emit]
        split_ifs <;> rfl

/-- C6: for every form, `handleCreateTask` first submits one `POST` to
`/tasks` whose body has title and priority as in the form and each of
description, dueDate and categoryId `null` exactly when the form value is the
empty string and the form value otherwise, never the empty string; no other
request of the handler is a `POST`. -/
theorem handleCreateTask_payload (env : Env) (form : TaskForm) (r1 : Response Unit)
    (r2 : Response (List Task)) (s : State) :
    ∃ (description dueDate categoryId : Option String) (rest : List Effect),
      (handleCreateTask env form r1 r2 s).effects
        = s.effects ++ Effect.preventDefault
            :: Effect.fetch "POST" (API_BASE ++ "/tasks")
                (some (Body.taskData form.title description form.priority dueDate categoryId))
            :: rest
      ∧ (∀ e ∈ rest, ∀ url b, e ≠ Effect.fetch "POST" url b)
      ∧ (description = none ↔ form.description = "")
      ∧ (form.description ≠ "" → description = some form.description)
      ∧ (dueDate = none ↔ form.dueDate = "")
      ∧ (form.dueDate ≠ "" → dueDate = some form.dueDate)
      ∧ (categoryId = none ↔ form.categoryId = "")
      ∧ (form.categoryId ≠ "" → categoryId = some form.categoryId)
      ∧ description ≠ some "" ∧ dueDate ≠ some "" ∧ categoryId ≠ some "" := by
  refine ⟨orNull form.description, orNull form.dueDate, orNull form.categoryId, ?_⟩
  have hfields :
      (orNull form.description = none ↔ form.description = "")
      ∧ (form.description ≠ "" → orNull form.description = some form.description)
      ∧ (orNull form.dueDate = none ↔ form.dueDate = "")
      ∧ (form.dueDate ≠ "" → orNull form.dueDate = some form.dueDate)
      ∧ (orNull form.categoryId = none ↔ form.categoryId = "")
      ∧ (form.categoryId ≠ "" → orNull form.categoryId = some form.categoryId)
      ∧ orNull form.description ≠ some "" ∧ orNull form.dueDate ≠ some ""
      ∧ orNull form.categoryId ≠ some "" :=
    ⟨orNull_eq_none_iff _, orNull_of_ne _, orNull_eq_none_iff _, orNull_of_ne _,
      orNull_eq_none_iff _, orNull_of_ne _, orNull_ne_some_empty _, orNull_ne_some_empty _,
      orNull_ne_some_empty _⟩
  have hfail : ∀ st : State,
      st = showError "Viga ülesande loomisel"
        ((((s.emit .preventDefault).emit
          (.fetch "POST" (API_BASE ++ "/tasks") (some (taskDataOf form))))).emit
            (.consoleError "Error creating task:")) →
      ∃ rest : List Effect,
        st.effects = s.effects ++ Effect.preventDefault
            :: Effect.fetch "POST" (API_BASE ++ "/tasks")
                (some (Body.taskData form.title (orNull form.description) form.priority
                  (orNull form.dueDate) (orNull form.categoryId)))
            :: rest
        ∧ (∀ e ∈ rest, ∀ url b, e ≠ Effect.fetch "POST" url b) := by
    intro st hst
    subst hst
    exact ⟨[.consoleError "Error creating task:",
        .consoleError ("✗ " ++ "Viga ülesande loomisel"), .alert "Viga ülesande loomisel"],
      by simp [showError, State.emit, taskDataOf], by simp⟩
  have hmain : ∃ rest : List Effect,
      (handleCreateTask env form r1 r2 s).effects
        = s.effects ++ Effect.preventDefault
            :: Effect.fetch "POST" (API_BASE ++ "/tasks")
                (some (Body.taskData form.title (orNull form.description) form.priority
                  (orNull form.dueDate) (orNull form.categoryId)))
            :: rest
      ∧ (∀ e ∈ rest, ∀ url b, e ≠ Effect.fetch "POST" url b) := by
    rcases r1 with _ | ⟨ok1, j1⟩
    · exact hfail _ rfl
    · cases ok1
      · exact hfail _ rfl
      · cases j1 with
        | none => exact hfail _ rfl
        | some u =>
          obtain ⟨rest, hrest, hno⟩ := loadTasks_effects env r2
            ((s.emit .preventDefault).emit
              (.fetch "POST" (API_BASE ++ "/tasks") (some (taskDataOf form))))
          refine ⟨Effect.fetch "GET" (API_BASE ++ "/tasks") none
              :: (rest ++ [.formReset, .consoleLog ("✓ " ++ "Ülesanne lisatud!")]), ?_, ?_⟩
          · simp only [handleCreateTask, createTask, showSuccess]
            simp only [State.emit] at hrest ⊢
            rw [hrest]
            simp [taskDataOf]
          · intro e he url b
            simp only [List.mem_cons, List.mem_append, List.mem_singleton,
              List.not_mem_nil, or_false] at he
            rcases he with h | h | h | h
            · subst h; simp
            · intro heq; subst heq; simpa [Effect.isFetch] using hno _ h
            · subst h; simp
            · subst h; simp
  obtain ⟨rest, h1, h2⟩ := hmain
  exact ⟨rest, h1, h2, hfields⟩

/-- C6, an instance: a form with only title and priority filled in is
submitted with the three optional fields `null`. -/
theorem handleCreateTask_payload_example :
    (handleCreateTask exampleEnv
        { title := "t", description := "", priority := "LOW", dueDate := "", categoryId := "" }
        .rejected .rejected exampleState).effects
      = [.preventDefault,
         .fetch "POST" "http://localhost:8080/api/v1/tasks"
           (some (.taskData "t" none "LOW" none none)),
         .consoleError "Error creating task:", .consoleError "✗ Viga ülesande loomisel",
         .alert "Viga ülesande loomisel"] := by
  decide

theorem find?_id_some (tasks : List Task) (taskId : String)
    (h : ∃ t ∈ tasks, t.id = taskId) :
    ∃ task, tasks.find? (fun t => t.id == taskId) = some task ∧ task ∈ tasks
      ∧ task.id = taskId := by
  cases hf : tasks.find? (fun t => t.id == taskId) with
  | none =>
    obtain ⟨t, ht, hid⟩ := h
    have := List.find?_eq_none.1 hf t ht
    simp [hid] at this
  | some task =>
    refine ⟨task, rfl, List.mem_of_find?_eq_some hf, ?_⟩
    have := List.find?_some hf
    simpa using this

/-- C7: when a task with the id is in the cache, `toggleStar` issues one
`PUT` to `/tasks/{id}` with the body `{starred: b}`, `b` the negation of the
`starred` of the cached task with that id (the first one), no other update
call, and when the update succeeds it goes on as `loadTasks` does, with a
`GET` of `/tasks`; when no task with the id is in the cache, it does nothing. -/
theorem toggleStar_update (env : Env) (taskId : String) (r1 : Response Unit)
    (r2 : Response (List Task)) (s : State) :
    ((∃ t ∈ s.tasks, t.id = taskId) →
      ∃ (task : Task) (rest : List Effect),
        s.tasks.find? (fun t => t.id == taskId) = some task ∧ task ∈ s.tasks
        ∧ task.id = taskId
        ∧ (toggleStar env taskId r1 r2 s).effects
            = s.effects ++ Effect.fetch "PUT" (API_BASE ++ "/tasks/" ++ taskId)
                (some (Body.starred (!task.starred))) :: rest
        ∧ (∀ e ∈ rest, e.isUpdate = false)
        ∧ (r1 = .received true (some ()) →
            toggleStar env taskId r1 r2 s
              = loadTasks env r2 (s.emit (.fetch "PUT" (API_BASE ++ "/tasks/" ++ taskId)
                  (some (Body.starred (!task.starred)))))
            ∧ rest.head? = some (Effect.fetch "GET" (API_BASE ++ "/tasks") none)))
    ∧ ((∀ t ∈ s.tasks, t.id ≠ taskId) → toggleStar env taskId r1 r2 s = s) := by
  constructor
  · intro h
    obtain ⟨task, hfind, hmem, hid⟩ := find?_id_some s.tasks taskId h
    have hfail : ∃ rest : List Effect,
        (showError "Viga tärni muutmisel"
          ((s.emit (.fetch "PUT" (API_BASE ++ "/tasks/" ++ taskId)
            (some (Body.starred (!task.starred))))).emit
              (.consoleError "Error updating task:"))).effects
          = s.effects ++ Effect.fetch "PUT" (API_BASE ++ "/tasks/" ++ taskId)
              (some (Body.starred (!task.starred))) :: rest
        ∧ (∀ e ∈ rest, e.isUpdate = false) :=
      ⟨[.consoleError "Error updating task:", .consoleError ("✗ " ++ "Viga tärni muutmisel"),
          .alert "Viga tärni muutmisel"],
        by simp [showError, State.emit], by simp [Effect.isUpdate]⟩
    rcases r1 with _ | ⟨ok1, j1⟩
    · obtain ⟨rest, h1, h2⟩ := hfail
      exact ⟨task, rest, hfind, hmem, hid, by simpa [toggleStar, hfind, updateTask] using h1,
        h2, by simp⟩
    · cases ok1
      · obtain ⟨rest, h1, h2⟩ := hfail
        exact ⟨task, rest, hfind, hmem, hid,
          by simpa [toggleStar, hfind, updateTask] using h1, h2, by simp⟩
      · cases j1 with
        | none =>
          obtain ⟨rest, h1, h2⟩ := hfail
          exact ⟨task, rest, hfind, hmem, hid,
            by simpa [toggleStar, hfind, updateTask] using h1, h2, by simp⟩
        | some u =>
          obtain ⟨rest, hrest, hno⟩ := loadTasks_effects env r2
            (s.emit (.fetch "PUT" (API_BASE ++ "/tasks/" ++ taskId)
              (some (Body.starred (!task.starred)))))
          have heq : toggleStar env taskId (.received true (some u)) r2 s
              = loadTasks env r2 (s.emit (.fetch "PUT" (API_BASE ++ "/tasks/" ++ taskId)
                  (some (Body.starred (!task.starred))))) := by
            simp [toggleStar, hfind, updateTask]
          refine ⟨task, Effect.fetch "GET" (API_BASE ++ "/tasks") none :: rest, hfind, hmem,
            hid, ?_, ?_, fun _ => ⟨heq, rfl⟩⟩
          · rw [heq, hrest]
            simp [State.emit]
          · intro e he
            rcases List.mem_cons.1 he with h | h
            · subst h; decide
            · have := hno e h
              cases e <;> simp_all [Effect.isFetch, Effect.isUpdate]
  · intro h
    have hnone : s.tasks.find? (fun t => t.id == taskId) = none := by
      rw [List.find?_eq_none]
      intro t ht
      simpa using h t ht
    simp [toggleStar, hnone]

/-- C7, an instance: the example task with id 1 is not starred, so the
update that `toggleStar` sends for it carries `starred: true`; for an id
that is not cached nothing happens. -/
theorem toggleStar_update_witness :
    (∃ rest : List Effect,
      (toggleStar exampleEnv "1" .rejected .rejected exampleState).effects
        = Effect.fetch "PUT" "http://localhost:8080/api/v1/tasks/1"
            (some (Body.starred true)) :: rest)
    ∧ toggleStar exampleEnv "9" .rejected .rejected exampleState = exampleState := by
  refine ⟨?_, (toggleStar_update exampleEnv "9" .rejected .rejected exampleState).2
    (by decide)⟩
  obtain ⟨task, rest, hfind, _, _, heff, _⟩ :=
    (toggleStar_update exampleEnv "1" .rejected .rejected exampleState).1
      ⟨exampleTask, by decide, rfl⟩
  have htask : task = exampleTask := by
    have h2 : exampleState.tasks.find? (fun t => t.id == "1") = some exampleTask := by decide
    rw [h2] at hfind
    exact (Option.some.inj hfind).symm
  subst htask
  exact ⟨rest, heff⟩

theorem loadCategories_effects (r : Response (List Category)) (s : State) :
    ∃ rest : List Effect,
      (loadCategories r s).effects
        = s.effects ++ Effect.fetch "GET" (API_BASE ++ "/categories") none :: rest
      ∧ ∀ e ∈ rest, e.isFetch = false := by
  have hfail : ∃ rest : List Effect,
      ((s.emit (.fetch "GET" (API_BASE ++ "/categories") none)).emit
          (.consoleError "Error loading categories:")).effects
        = s.effects ++ Effect.fetch "GET" (API_BASE ++ "/categories") none :: rest
      ∧ ∀ e ∈ rest, e.isFetch = false :=
    ⟨[.consoleError "Error loading categories:"], by simp [State.emit],
      by simp [Effect.isFetch]⟩
  rcases r with _ | ⟨ok, j⟩
  · exact hfail
  · cases ok
    · exact hfail
    · cases j with
      | none => exact hfail
      | some l =>
        refine ⟨[], ?_, by simp⟩
        simp only [loadCategories, updateCategoryDropdowns, renderCategories, State.emit]
        split_ifs <;> rfl

theorem isDelete_false_of_isFetch_false (e : Effect) (h : e.isFetch = false) :
    e.isDelete = false := by
  cases e <;> simp_all [Effect.isFetch, Effect.isDelete]

/-- C9: when the confirmation is declined, `handleDeleteTask` and
`handleDeleteCategory` do nothing but ask: no request, no console output, no
alert, both caches and the page as before.  Whatever the answer, the first
thing a delete handler does is ask, and a `DELETE` request follows exactly
when the confirmation was accepted. -/
theorem delete_requires_confirmation (env : Env) (id : String) (r1 : Response Unit)
    (r2 : Response (List Category)) (r3 : Response (List Task)) (s : State) :
    handleDeleteTask env id false r1 r3 s
        = s.emit (.confirm "Kas oled kindel, et soovid selle ülesande kustutada?")
    ∧ handleDeleteCategory env id false r1 r2 r3 s
        = s.emit (.confirm "Kas oled kindel, et soovid selle kategooria kustutada?")
    ∧ (∀ msg : String, (s.emit (.confirm msg)).tasks = s.tasks
        ∧ (s.emit (.confirm msg)).categories = s.categories
        ∧ (s.emit (.confirm msg)).dom = s.dom
        ∧ (s.emit (.confirm msg)).effects = s.effects ++ [.confirm msg]
        ∧ (Effect.confirm msg).isFetch = false ∧ (Effect.confirm msg).isNotification = false)
    ∧ (∀ confirmed : Bool, ∃ rest : List Effect,
        (handleDeleteTask env id confirmed r1 r3 s).effects
          = s.effects ++ Effect.confirm "Kas oled kindel, et soovid selle ülesande kustutada?"
              :: rest
        ∧ ((∃ e ∈ rest, e.isDelete = true) ↔ confirmed = true))
    ∧ (∀ confirmed : Bool, ∃ rest : List Effect,
        (handleDeleteCategory env id confirmed r1 r2 r3 s).effects
          = s.effects ++ Effect.confirm "Kas oled kindel, et soovid selle kategooria kustutada?"
              :: rest
        ∧ ((∃ e ∈ rest, e.isDelete = true) ↔ confirmed = true)) := by
  refine ⟨by simp [handleDeleteTask], by simp [handleDeleteCategory],
    fun msg => ⟨rfl, rfl, rfl, rfl, rfl, rfl⟩, ?_, ?_⟩
  · intro confirmed
    cases confirmed
    · exact ⟨[], by simp [handleDeleteTask, State.emit], by simp⟩
    · have hfail : ∃ rest : List Effect,
          (showError "Viga ülesande kustutamisel"
            (((s.emit (.confirm "Kas oled kindel, et soovid selle ülesande kustutada?")).emit
              (.fetch "DELETE" (API_BASE ++ "/tasks/" ++ id) none)).emit
                (.consoleError "Error deleting task:"))).effects
            = s.effects
              ++ Effect.confirm "Kas oled kindel, et soovid selle ülesande kustutada?" :: rest
          ∧ ((∃ e ∈ rest, e.isDelete = true) ↔ true = true) :=
        ⟨[.fetch "DELETE" (API_BASE ++ "/tasks/" ++ id) none,
            .consoleError "Error deleting task:",
            .consoleError ("✗ " ++ "Viga ülesande kustutamisel"),
            .alert "Viga ülesande kustutamisel"],
          by simp [showError, State.emit], by simp [Effect.isDelete]⟩
      rcases r1 with _ | ⟨ok1, j1⟩
      · simpa [handleDeleteTask, deleteTask] using hfail
      · cases ok1
        · simpa [handleDeleteTask, deleteTask] using hfail
        · obtain ⟨rest, hrest, _⟩ := loadTasks_effects env r3
            ((s.emit (.confirm "Kas oled kindel, et soovid selle ülesande kustutada?")).emit
              (.fetch "DELETE" (API_BASE ++ "/tasks/" ++ id) none))
          refine ⟨Effect.fetch "DELETE" (API_BASE ++ "/tasks/" ++ id) none
            :: Effect.fetch "GET" (API_BASE ++ "/tasks") none
            :: (rest ++ [.consoleLog ("✓ " ++ "Ülesanne kustutatud!")]), ?_, ?_⟩
          · have heq : handleDeleteTask env id true (.received true j1) r3 s
                = showSuccess "Ülesanne kustutatud!" (loadTasks env r3
                    ((s.emit (.confirm
                      "Kas oled kindel, et soovid selle ülesande kustutada?")).emit
                      (.fetch "DELETE" (API_BASE ++ "/tasks/" ++ id) none))) := rfl
            rw [heq]
            show (loadTasks env r3 _).effects ++ _ = _
            rw [hrest]
            simp [State.emit]
          · simp [Effect.isDelete]
  · intro confirmed
    cases confirmed
    · exact ⟨[], by simp [handleDeleteCategory, State.emit], by simp⟩
    · have hfail : ∃ rest : List Effect,
          (showError "Viga kategooria kustutamisel"
            (((s.emit (.confirm "Kas oled kindel, et soovid selle kategooria kustutada?")).emit
              (.fetch "DELETE" (API_BASE ++ "/categories/" ++ id) none)).emit
                (.consoleError "Error deleting category:"))).effects
            = s.effects
              ++ Effect.confirm "Kas oled kindel, et soovid selle kategooria kustutada?"
                :: rest
          ∧ ((∃ e ∈ rest, e.isDelete = true) ↔ true = true) :=
        ⟨[.fetch "DELETE" (API_BASE ++ "/categories/" ++ id) none,
            .consoleError "Error deleting category:",
            .consoleError ("✗ " ++ "Viga kategooria kustutamisel"),
            .alert "Viga kategooria kustutamisel"],
          by simp [showError, State.emit], by simp [Effect.isDelete]⟩
      rcases r1 with _ | ⟨ok1, j1⟩
      · simpa [handleDeleteCategory, deleteCategory] using hfail
      · cases ok1
        · simpa [handleDeleteCategory, deleteCategory] using hfail
        · obtain ⟨rest2, hrest2, _⟩ := loadCategories_effects r2
            ((s.emit (.confirm "Kas oled kindel, et soovid selle kategooria kustutada?")).emit
              (.fetch "DELETE" (API_BASE ++ "/categories/" ++ id) none))
          obtain ⟨rest3, hrest3, _⟩ := loadTasks_effects env r3 (loadCategories r2
            ((s.emit (.confirm "Kas oled kindel, et soovid selle kategooria kustutada?")).emit
              (.fetch "DELETE" (API_BASE ++ "/categories/" ++ id) none)))
          refine ⟨Effect.fetch "DELETE" (API_BASE ++ "/categories/" ++ id) none
            :: Effect.fetch "GET" (API_BASE ++ "/categories") none
            :: (rest2 ++ Effect.fetch "GET" (API_BASE ++ "/tasks") none
            :: (rest3 ++ [.consoleLog ("✓ " ++ "Kategooria kustutatud!")])), ?_, ?_⟩
          · have heq : handleDeleteCategory env id true (.received true j1) r2 r3 s
                = showSuccess "Kategooria kustutatud!" (loadTasks env r3 (loadCategories r2
                    ((s.emit (.confirm
                      "Kas oled kindel, et soovid selle kategooria kustutada?")).emit
                      (.fetch "DELETE" (API_BASE ++ "/categories/" ++ id) none)))) := rfl
            rw [heq]
            show (loadTasks env r3 _).effects ++ _ = _
            rw [hrest3, hrest2]
            simp [State.emit]
          · simp [Effect.isDelete]

/-- C9, an instance: declining the deletion of task 1 leaves the example
state with one more effect, the question. -/
theorem delete_requires_confirmation_witness :
    (handleDeleteTask exampleEnv "1" false .rejected .rejected exampleState).effects
        = [.confirm "Kas oled kindel, et soovid selle ülesande kustutada?"]
    ∧ (handleDeleteTask exampleEnv "1" false .rejected .rejected exampleState).tasks
        = exampleState.tasks :=
  ⟨by rw [(delete_requires_confirmation exampleEnv "1" .rejected .rejected .rejected
      exampleState).1]; rfl,
   by rw [(delete_requires_confirmation exampleEnv "1" .rejected .rejected .rejected
      exampleState).1]; rfl⟩

/-! ## Failed requests -/

/-- The nine operations other than `loadCategories`: when the answer to
their request has a non-success status, the `alert` of `showError` is among
their effects and both caches are as before (for `toggleStar`, which issues a
request only for a cached task, whenever it issues none as well). -/
theorem failure_alerts_and_keeps_caches (env : Env) (form : TaskForm) (edit : EditForm)
    (id name color : String) (j : Option Unit) (jt : Option (List Task))
    (r2 : Response (List Task)) (rc : Response (List Category)) (s : State) :
    (Effect.alert "Viga ülesannete laadimisel" ∈ (loadTasks env (.received false jt) s).effects
      ∧ (loadTasks env (.received false jt) s).tasks = s.tasks
      ∧ (loadTasks env (.received false jt) s).categories = s.categories)
    ∧ (Effect.alert "Viga ülesande loomisel"
        ∈ (handleCreateTask env form (.received false j) r2 s).effects
      ∧ (handleCreateTask env form (.received false j) r2 s).tasks = s.tasks
      ∧ (handleCreateTask env form (.received false j) r2 s).categories = s.categories)
    ∧ (Effect.alert "Viga ülesande uuendamisel"
        ∈ (handleUpdateTask env edit (.received false j) r2 s).effects
      ∧ (handleUpdateTask env edit (.received false j) r2 s).tasks = s.tasks
      ∧ (handleUpdateTask env edit (.received false j) r2 s).categories = s.categories)
    ∧ (Effect.alert "Viga ülesande täitmisel"
        ∈ (handleCompleteTask env id (.received false j) r2 s).effects
      ∧ (handleCompleteTask env id (.received false j) r2 s).tasks = s.tasks
      ∧ (handleCompleteTask env id (.received false j) r2 s).categories = s.categories)
    ∧ (Effect.alert "Viga ülesande alustamisel"
        ∈ (handleStartTask env id (.received false j) r2 s).effects
      ∧ (handleStartTask env id (.received false j) r2 s).tasks = s.tasks
      ∧ (handleStartTask env id (.received false j) r2 s).categories = s.categories)
    ∧ (Effect.alert "Viga ülesande kustutamisel"
        ∈ (handleDeleteTask env id true (.received false j) r2 s).effects
      ∧ (handleDeleteTask env id true (.received false j) r2 s).tasks = s.tasks
      ∧ (handleDeleteTask env id true (.received false j) r2 s).categories = s.categories)
    ∧ (Effect.alert "Viga kategooria loomisel"
        ∈ (handleCreateCategory name color (.received false j) rc s).effects
      ∧ (handleCreateCategory name color (.received false j) rc s).tasks = s.tasks
      ∧ (handleCreateCategory name color (.received false j) rc s).categories = s.categories)
    ∧ (Effect.alert "Viga kategooria kustutamisel"
        ∈ (handleDeleteCategory env id true (.received false j) rc r2 s).effects
      ∧ (handleDeleteCategory env id true (.received false j) rc r2 s).tasks = s.tasks
      ∧ (handleDeleteCategory env id true (.received false j) rc r2 s).categories
          = s.categories)
    ∧ (((∃ t ∈ s.tasks, t.id = id) →
          Effect.alert "Viga tärni muutmisel"
            ∈ (toggleStar env id (.received false j) r2 s).effects)
      ∧ (toggleStar env id (.received false j) r2 s).tasks = s.tasks
      ∧ (toggleStar env id (.received false j) r2 s).categories = s.categories) := by
  refine ⟨?_, ?_, ?_, ?_, ?_, ?_, ?_, ?_, ?_⟩
  · simp [loadTasks, showError, State.emit]
  · simp [handleCreateTask, createTask, showError, State.emit]
  · simp [handleUpdateTask, updateTask, showError, State.emit]
  · simp [handleCompleteTask, completeTask, showError, State.emit]
  · simp [handleStartTask, startTask, showError, State.emit]
  · simp [handleDeleteTask, deleteTask, showError, State.emit]
  · simp [handleCreateCategory, createCategory, showError, State.emit]
  · simp [handleDeleteCategory, deleteCategory, showError, State.emit]
  · refine ⟨?_, ?_, ?_⟩
    · intro h
      obtain ⟨task, hfind, _, _⟩ := find?_id_some s.tasks id h
      simp [toggleStar, hfind, updateTask, showError, State.emit]
    · cases hfind : s.tasks.find? (fun t => t.id == id) <;>
        simp [toggleStar, hfind, updateTask, showError, State.emit]
    · cases hfind : s.tasks.find? (fun t => t.id == id) <;>
        simp [toggleStar, hfind, updateTask, showError, State.emit]

/-- C3 fails at `loadCategories`: when the answer to its request has a
non-success status, it writes one line to the console and nothing else; no
`showError`, hence no `alert`, is among its effects (both caches are as
before), whereas `loadTasks`, written the same way, ends with the `alert` of
`showError`. -/
theorem loadCategories_failure_no_showError (env : Env) (s : State)
    (jc : Option (List Category)) (jt : Option (List Task)) :
    (loadCategories (.received false jc) s).effects
        = s.effects ++ [.fetch "GET" (API_BASE ++ "/categories") none,
            .consoleError "Error loading categories:"]
    ∧ (∀ e ∈ [Effect.fetch "GET" (API_BASE ++ "/categories") none,
            Effect.consoleError "Error loading categories:"], e.isAlert = false)
    ∧ (loadCategories (.received false jc) s).tasks = s.tasks
    ∧ (loadCategories (.received false jc) s).categories = s.categories
    ∧ (loadTasks env (.received false jt) s).effects
        = s.effects ++ [.fetch "GET" (API_BASE ++ "/tasks") none,
            .consoleError "Error loading tasks:",
            .consoleError "✗ Viga ülesannete laadimisel",
            .alert "Viga ülesannete laadimisel"] := by
  refine ⟨?_, ?_, ?_, ?_, ?_⟩
  · simp [loadCategories, State.emit]
  · simp [Effect.isAlert]
  · simp [loadCategories, State.emit]
  · simp [loadCategories, State.emit]
  · simp [loadTasks, showError, State.emit]

end ToDo
